import Mathlib

/-!
Shallow embedding of `src/nhamiltonian/nHamiltonian_compute_KCRPMD.cpp`
(KC-RPMD effective potential, nuclear force and auxiliary force), with
theorems settling the specification claims about it.

C++ `double` arithmetic is modelled over `ℝ`; `complex` matrix elements of
the diabatic Hamiltonian are modelled over `ℂ`.  Division is Lean's total
division (matching the code, which never guards the divisions at issue
beyond the branch thresholds).
-/

namespace KCRPMD

/-- One diabatic Hamiltonian snapshot: the four complex entries of the 2x2
matrix `ham_dia`.  The code reads `get(0,0).real()`, `get(1,1).real()` and
`abs(get(0,1))`. -/
structure DiaHam where
  h00 : ℂ
  h01 : ℂ
  h10 : ℂ
  h11 : ℂ

/-- `V0 = (ham_dia->get(0,0)).real()`. -/
def DiaHam.V0 (H : DiaHam) : ℝ := H.h00.re

/-- `V1 = (ham_dia->get(1,1)).real()`. -/
def DiaHam.V1 (H : DiaHam) : ℝ := H.h11.re

/-- `K = abs(ham_dia->get(0,1))`. -/
noncomputable def DiaHam.K (H : DiaHam) : ℝ := Complex.abs H.h01

/-- One real 2x2 matrix, as produced by `generate_m_matrices`. -/
structure MMat where
  m00 : ℝ
  m01 : ℝ
  m10 : ℝ
  m11 : ℝ

/-- The single M matrix built for one bead from `(V0, V1, K)` with inverse
temperature factor `bn` (`beta` in the parent-only path, `beta/children.size()`
in the per-child path); transcribed from lines 57-60 / 68-71 of
`nHamiltonian_compute_KCRPMD.cpp`. -/
noncomputable def mMatrixOfBead (bn V0 V1 K : ℝ) : MMat :=
  { m00 := Real.exp (-bn * V0)
    m01 := -bn * K * Real.exp (-bn * V0)
    m10 := -bn * K * Real.exp (-bn * V1)
    m11 := Real.exp (-bn * V1) }

/-- `nHamiltonian::generate_m_matrices(beta)`: when there are no children the
parent Hamiltonian provides the single bead with factor `beta`; otherwise one
matrix per child with factor `beta / children.size()`. -/
noncomputable def generate_m_matrices (beta : ℝ) (parent : DiaHam)
    (children : List DiaHam) : List MMat :=
  if children.length = 0 then
    [mMatrixOfBead beta parent.V0 parent.V1 parent.K]
  else
    children.map fun ch =>
      mMatrixOfBead (beta / (children.length : ℝ)) ch.V0 ch.V1 ch.K

/-- Local `Vg` of the three routines (lines 113/206/347):
`0.5*(V0+V1) - 0.5*sqrt((V0-V1)^2 + (2K)^2)`. -/
noncomputable def kcrpmdVg (V0 V1 K : ℝ) : ℝ :=
  0.5 * (V0 + V1) - 0.5 * Real.sqrt ((V0 - V1) ^ 2 + (2 * K) ^ 2)

/-- Local `Ve` of the three routines (lines 114/207/348). -/
noncomputable def kcrpmdVe (V0 V1 K : ℝ) : ℝ :=
  0.5 * (V0 + V1) + 0.5 * Real.sqrt ((V0 - V1) ^ 2 + (2 * K) ^ 2)

/-- The kinked-pair energy `VKP` before the kinetic constraint: the
three-regime branch of lines 115-123 (repeated verbatim at 208-216 and
349-357). -/
noncomputable def kcrpmdVKP0 (beta V0 V1 K : ℝ) : ℝ :=
  if beta * K > 1e-3 then
    kcrpmdVg V0 V1 K -
      Real.log (1 + Real.exp (-beta * (kcrpmdVe V0 V1 K - kcrpmdVg V0 V1 K)) -
        Real.exp (-beta * (V0 - kcrpmdVg V0 V1 K)) -
        Real.exp (-beta * (V1 - kcrpmdVg V0 V1 K))) / beta
  else if beta * |V0 - V1| > 1e-7 then
    0.5 * (V0 + V1) -
      Real.log ((beta * K) ^ 2 * Real.sinh (0.5 * beta * (V0 - V1)) /
        (0.5 * beta * (V0 - V1))) / beta
  else
    0.5 * (V0 + V1) - Real.log ((beta * K) ^ 2) / beta

/-- Local `w = (V0 - V1) / K` of the kinetic-constraint block
(lines 126/251/360). -/
noncomputable def kcrpmdW (V0 V1 K : ℝ) : ℝ := (V0 - V1) / K

/-- Local `A = 0.5*a*(1 + tanh(-c*(beta*K - 1)))` of the kinetic-constraint
block (lines 127/252/361). -/
noncomputable def kcrpmdA (a c beta K : ℝ) : ℝ :=
  0.5 * a * (1 + Real.tanh (-c * (beta * K - 1)))

/-- Local `C = 1 + 0.5*(sqrt(A/3.1415)*eta - 1)*(1 + tanh(-d*(beta*K - 1)))`
of the kinetic-constraint block (lines 128/253/362).  Note the code uses the
literal `3.1415`, not the constant pi. -/
noncomputable def kcrpmdC (eta a c d beta K : ℝ) : ℝ :=
  1 + 0.5 * (Real.sqrt (kcrpmdA a c beta K / 3.1415) * eta - 1) *
    (1 + Real.tanh (-d * (beta * K - 1)))

/-- The kinetic-constraint increment `(A*w^2 - log(C)) / beta` added to `VKP`
(lines 129/254/363). -/
noncomputable def kcrpmdConstraint (beta eta a c d V0 V1 K : ℝ) : ℝ :=
  (kcrpmdA a c beta K * kcrpmdW V0 V1 K ^ 2 -
    Real.log (kcrpmdC eta a c d beta K)) / beta

/-- The kinked-pair energy after the kinetic-constraint increment, i.e. the
value of the local variable `VKP` after line 129 (equally 254 / 363). -/
noncomputable def kcrpmdVKP (beta eta a c d V0 V1 K : ℝ) : ℝ :=
  kcrpmdVKP0 beta V0 V1 K + kcrpmdConstraint beta eta a c d V0 V1 K

/-- The regime selected for the kinked-pair energy `VKP` in
`kcrpmd_effective_potential` (lines 115-123): `0` is the `beta*K > 1e-3`
branch, `1` the `beta*|V0-V1| > 1e-7` branch, `2` the final branch. -/
noncomputable def kcrpmdPotentialRegime (beta V0 V1 K : ℝ) : ℕ :=
  if beta * K > 1e-3 then 0 else if beta * |V0 - V1| > 1e-7 then 1 else 2

/-- The regime selected for the kinked-pair force `FKP` in
`kcrpmd_effective_force` (lines 232-248), numbered the same way. -/
noncomputable def kcrpmdForceRegime (beta V0 V1 K : ℝ) : ℕ :=
  if beta * K > 1e-3 then 0 else if beta * |V0 - V1| > 1e-7 then 1 else 2

/-- Inner branch of the soft-gate penalty (`|x| < 0.5` case of lines
132-149), as a function of `x = y - m`: `-log(1/(1 + e^{b(2|x|-1)}))/beta`. -/
noncomputable def gateBranchInner (beta b x : ℝ) : ℝ :=
  -Real.log (1 / (1 + Real.exp (b * (2 * |x| - 1)))) / beta

/-- Outer branch of the soft-gate penalty (`|x| >= 0.5` case of lines
132-149): `(b(2|x|-1) - log(1/(1 + e^{-b(2|x|-1)})))/beta`. -/
noncomputable def gateBranchOuter (beta b x : ℝ) : ℝ :=
  (b * (2 * |x| - 1) -
    Real.log (1 / (1 + Real.exp (-b * (2 * |x| - 1))))) / beta

/-- The piecewise soft-gate penalty added to `V0` (offset center `m = -1`),
`V1` (`m = 1`) and `VKP` (`m = 0`) in all three routines (lines 132-149,
275-292, 366-383). -/
noncomputable def gatePenalty (beta b y m : ℝ) : ℝ :=
  if |y - m| < 0.5 then gateBranchInner beta b (y - m)
  else gateBranchOuter beta b (y - m)

/-- The per-surface auxiliary-force increment of
`kcrpmd_effective_auxiliary_force` (lines 385-402), as a function of the
offset center `m` (`-1` for `F0`, `0` for `FKP`, `1` for `F1`). -/
noncomputable def gateForce (beta b y m : ℝ) : ℝ :=
  if y - m > 0 then -b * (1 + Real.tanh (b * (|y - m| - 0.5))) / beta
  else b * (1 + Real.tanh (b * (|y - m| - 0.5))) / beta

/-- `Vshift = min({V0, VKP, V1})` (lines 158/301/408). -/
noncomputable def kcrpmdVshift (V0 VKP V1 : ℝ) : ℝ := min V0 (min VKP V1)

/-- The Boltzmann partition sum
`e^{-beta(V0-Vshift)} + e^{-beta(VKP-Vshift)} + e^{-beta(V1-Vshift)}`
appearing as the logarithm argument at line 160 and as the force denominators
at lines 303 and 410. -/
noncomputable def kcrpmdPartitionSum (beta V0 VKP V1 : ℝ) : ℝ :=
  Real.exp (-beta * (V0 - kcrpmdVshift V0 VKP V1)) +
    Real.exp (-beta * (VKP - kcrpmdVshift V0 VKP V1)) +
    Real.exp (-beta * (V1 - kcrpmdVshift V0 VKP V1))

/-- `nHamiltonian::kcrpmd_effective_potential` on the implemented
single-bead path (lines 106-162).  `rpmd` stands for the external
collaborator value `RPMD_internal_potential(q, invM, beta)`. -/
noncomputable def kcrpmd_effective_potential (rpmd : ℝ) (H : DiaHam)
    (y beta eta a b c d : ℝ) : ℝ :=
  let V0 := H.V0 + gatePenalty beta b y (-1)
  let V1 := H.V1 + gatePenalty beta b y 1
  let VKP := kcrpmdVKP beta eta a c d H.V0 H.V1 H.K + gatePenalty beta b y 0
  rpmd + kcrpmdVshift V0 VKP V1 -
    Real.log (kcrpmdPartitionSum beta V0 VKP V1) / beta

/-- `nHamiltonian::kcrpmd_effective_auxiliary_force` on the implemented
single-bead path (lines 340-410), returning the single entry of the
length-1 result vector.  `F0init`, `F1init`, `FKPinit` are the initial
contents of the local accumulators `F0`, `F1`, `FKP`, which the code
declares without initialization and then updates with `+=` (lines 335-337
and 385-402): their value at entry is indeterminate in the C++ source, so
it is an explicit parameter here. -/
noncomputable def kcrpmd_effective_auxiliary_force
    (F0init F1init FKPinit : ℝ) (H : DiaHam) (y beta eta a b c d : ℝ) : ℝ :=
  let V0 := H.V0 + gatePenalty beta b y (-1)
  let V1 := H.V1 + gatePenalty beta b y 1
  let VKP := kcrpmdVKP beta eta a c d H.V0 H.V1 H.K + gatePenalty beta b y 0
  let F0 := F0init + gateForce beta b y (-1)
  let FKP := FKPinit + gateForce beta b y 0
  let F1 := F1init + gateForce beta b y 1
  let Vshift := kcrpmdVshift V0 VKP V1
  (Real.exp (-beta * (V0 - Vshift)) * F0 +
      Real.exp (-beta * (VKP - Vshift)) * FKP +
      Real.exp (-beta * (V1 - Vshift)) * F1) /
    kcrpmdPartitionSum beta V0 VKP V1

/-- Per-degree-of-freedom value of the matrix `FA` after the guarded update
of `kcrpmd_effective_force` (lines 257, 260-262): `FA` is zero-initialized
and assigned `-0.5*a*c*beta/cosh(-c*(beta*K-1))^2 * FK` only when
`c * |beta*K - 1| < 250`. -/
noncomputable def kcrpmdFAupdate (a c beta K FK : ℝ) : ℝ :=
  if c * |beta * K - 1| < 250 then
    -0.5 * a * c * beta / Real.cosh (-c * (beta * K - 1)) ^ 2 * FK
  else 0

/-- Per-degree-of-freedom value of the second, `d`-guarded contribution to
`FC` in `kcrpmd_effective_force` (lines 266-268), accumulated with `+=`
only when `d * |beta*K - 1| < 250`. -/
noncomputable def kcrpmdFCdirect (eta a c d beta K FK : ℝ) : ℝ :=
  if d * |beta * K - 1| < 250 then
    -0.5 * d * beta * (Real.sqrt (kcrpmdA a c beta K / 3.1415) * eta - 1) /
      Real.cosh (-d * (beta * K - 1)) ^ 2 * FK
  else 0

/-- Per-degree-of-freedom value of `FC` after lines 264-268: the first
contribution via `FA / sqrt(A)` plus the guarded direct term. -/
noncomputable def kcrpmdFCupdate (eta a c d beta K FK : ℝ) : ℝ :=
  -eta / (4 * Real.sqrt 3.1415) * (1 + Real.tanh (-d * (beta * K - 1))) *
      kcrpmdFAupdate a c beta K FK / Real.sqrt (kcrpmdA a c beta K) +
    kcrpmdFCdirect eta a c d beta K FK

/-- Spec-modelled variant of the kinetic-constraint increment, following the
claim wording of C4 with the mathematical constant pi in place of the
code literal `3.1415`. -/
noncomputable def kcrpmdConstraintSpecPi (beta eta a c d V0 V1 K : ℝ) : ℝ :=
  (kcrpmdA a c beta K * kcrpmdW V0 V1 K ^ 2 -
    Real.log (1 + 0.5 * (Real.sqrt (kcrpmdA a c beta K / Real.pi) * eta - 1) *
      (1 + Real.tanh (-d * (beta * K - 1))))) / beta

/-- Diagnostic printed by `kcrpmd_effective_potential` when the diabatic
Hamiltonian is not allocated (lines 93-94; the C++ backslash line splice
keeps the three spaces around the break). -/
def potential_alloc_msg : String :=
  "Error in kcrpmd_effective_potential(): the diabatic Hamiltonian matrix is not allocated   but it is needed for the calculations\n"

/-- Diagnostic printed by `kcrpmd_effective_potential` when `ndia != 2`
(line 96). -/
def potential_ndia_msg : String :=
  "Error in kcrpmd_effective_potential(): implementation only for ndia=2\n"

/-- Diagnostic printed by `kcrpmd_effective_potential` on the unimplemented
multi-bead path (line 152). -/
def potential_quantum_msg : String :=
  "Error in kcrpmd_effective_potential() not implemented for quantum nuclei\n"

/-- Diagnostic printed on the bead/trajectory-count mismatch path of the
potential and force routines (lines 155 and 298). -/
def mismatch_msg : String :=
  "ERROR: the size of the input is different from the number of children\n"

/-- Diagnostic printed by `kcrpmd_effective_force` when the diabatic
Hamiltonian is not allocated (lines 181-182, transcribed verbatim). -/
def force_alloc_msg : String :=
  "Error in kcrpmd_effective_potential(): the diabatic Hamiltonian matrix is not allocated   but it is needed for the calculations\n"

/-- Diagnostic printed by `kcrpmd_effective_force` when `ndia != 2`
(line 184, transcribed verbatim). -/
def force_ndia_msg : String :=
  "Error in kcrpmd_effective_potential(): implementation only for ndia=2\n"

/-- Diagnostic printed by `kcrpmd_effective_force` on the unimplemented
multi-bead path (line 295, transcribed verbatim). -/
def force_quantum_msg : String :=
  "Error in kcrpmd_effective_potential() not implemented for quantum nuclei\n"

/-- Diagnostic printed by `kcrpmd_effective_auxiliary_force` when the
diabatic Hamiltonian is not allocated (lines 324-325, transcribed
verbatim). -/
def aux_alloc_msg : String :=
  "Error in kcrpmd_effective_potential(): the diabatic Hamiltonian matrix is not allocated   but it is needed for the calculations\n"

/-- Diagnostic printed by `kcrpmd_effective_auxiliary_force` when
`ndia != 2` (line 327, transcribed verbatim). -/
def aux_ndia_msg : String :=
  "Error in kcrpmd_effective_potential(): implementation only for ndia=2\n"

/-- Diagnostic printed by `kcrpmd_effective_auxiliary_force` on the
unimplemented multi-bead path (line 405). -/
def aux_quantum_msg : String :=
  "Error in kcrpmd_effective_auxiliary_force() not implemented for quantum nuclei\n"

/-- Precondition checking of `kcrpmd_effective_potential` (lines 93-96 and
106-156): `some msg` means the routine prints `msg` and terminates the
process via `exit(0)`; `none` means the single-bead computation proceeds. -/
def potential_precheck (hamDiaMemStatus ndia nchildren ntraj : ℕ) :
    Option String :=
  if hamDiaMemStatus = 0 then some potential_alloc_msg
  else if ndia ≠ 2 then some potential_ndia_msg
  else if nchildren = 1 ∧ ntraj = 1 then none
  else if nchildren = ntraj then some potential_quantum_msg
  else some mismatch_msg

/-- Precondition checking of `kcrpmd_effective_force` (lines 181-184 and
199-299), with the same convention. -/
def force_precheck (hamDiaMemStatus ndia nchildren ntraj : ℕ) :
    Option String :=
  if hamDiaMemStatus = 0 then some force_alloc_msg
  else if ndia ≠ 2 then some force_ndia_msg
  else if nchildren = 1 ∧ ntraj = 1 then none
  else if nchildren = ntraj then some force_quantum_msg
  else some mismatch_msg

/-- Precondition checking of `kcrpmd_effective_auxiliary_force` (lines
324-327 and 340-406): here `ntraj` is `children.size()` itself, so the only
branch condition is `ntraj == 1`. -/
def aux_precheck (hamDiaMemStatus ndia nchildren : ℕ) : Option String :=
  if hamDiaMemStatus = 0 then some aux_alloc_msg
  else if ndia ≠ 2 then some aux_ndia_msg
  else if nchildren = 1 then none
  else some aux_quantum_msg

end KCRPMD

namespace KCRPMD

/-- Claim C1: for a single bead (children count 1) with `V0=1`, `V1=2`,
`K=|0.5|=0.5` and `beta=2`, `generate_m_matrices` returns exactly one 2x2
matrix with `M[0][0]=e^{-2}`, `M[1][1]=e^{-4}`, `M[0][1]=-2*0.5*e^{-2}` and
`M[1][0]=-2*0.5*e^{-4}`. -/
theorem generate_m_matrices_single_bead :
    generate_m_matrices 2 ⟨0, 0, 0, 0⟩ [⟨1, ((0.5 : ℝ) : ℂ), ((0.5 : ℝ) : ℂ), 2⟩] =
      [⟨Real.exp (-2), -2 * 0.5 * Real.exp (-2),
        -2 * 0.5 * Real.exp (-4), Real.exp (-4)⟩] := by
  have hK : Complex.abs ((0.5 : ℝ) : ℂ) = 0.5 := by
    rw [Complex.abs_ofReal]; norm_num
  simp only [generate_m_matrices, List.length_cons, List.length_nil,
    List.map_cons, List.map_nil, mMatrixOfBead, DiaHam.V0, DiaHam.V1, DiaHam.K]
  norm_num [hK, Complex.one_re, Complex.re_ofNat]

/-- Claim C2: for every input, the regime branch chosen for the kinked-pair
energy `VKP` in `kcrpmd_effective_potential` and the regime branch chosen
for the kinked-pair force `FKP` in `kcrpmd_effective_force` coincide: both
compare `beta*K > 1e-3` first and then `beta*|V0-V1| > 1e-7`. -/
theorem regime_branch_consistency (beta V0 V1 K : ℝ) :
    kcrpmdForceRegime beta V0 V1 K = kcrpmdPotentialRegime beta V0 V1 K := rfl

/-- The two softplus branches agree: `-log(1/(1+e^z)) = log(1+e^z)`. -/
lemma neg_log_one_div_one_add_exp (z : ℝ) :
    -Real.log (1 / (1 + Real.exp z)) = Real.log (1 + Real.exp z) := by
  rw [one_div, Real.log_inv, neg_neg]

/-- The overflow-safe softplus split:
`z - log(1/(1+e^{-z})) = log(1+e^z)`. -/
lemma softplus_split (z : ℝ) :
    z - Real.log (1 / (1 + Real.exp (-z))) = Real.log (1 + Real.exp z) := by
  have h1 : (0 : ℝ) < 1 + Real.exp (-z) := by positivity
  rw [one_div, Real.log_inv, sub_neg_eq_add]
  calc z + Real.log (1 + Real.exp (-z))
      = Real.log (Real.exp z) + Real.log (1 + Real.exp (-z)) := by
        rw [Real.log_exp]
    _ = Real.log (Real.exp z * (1 + Real.exp (-z))) := by
        rw [Real.log_mul (Real.exp_ne_zero z) h1.ne']
    _ = Real.log (1 + Real.exp z) := by
        rw [mul_add, mul_one, ← Real.exp_add, add_neg_cancel, Real.exp_zero,
          add_comm]

/-- Claim C6: for every `y`, `b`, `beta` and offset center `m`, with
`x = y - m` and `z = b(2|x|-1)`, the inner branch
`-log(1/(1+e^z))/beta` and the outer branch `(z - log(1/(1+e^{-z})))/beta`
of the soft-gate penalty are equal as real functions, both being
`softplus(z)/beta`; in particular the piecewise `gatePenalty` equals the
single smooth formula everywhere, hence is continuous at `|x| = 0.5`. -/
theorem gate_branches_agree (beta b y m : ℝ) :
    gateBranchInner beta b (y - m) = gateBranchOuter beta b (y - m) ∧
    gatePenalty beta b y m =
      Real.log (1 + Real.exp (b * (2 * |y - m| - 1))) / beta := by
  have hinner : ∀ x : ℝ, gateBranchInner beta b x =
      Real.log (1 + Real.exp (b * (2 * |x| - 1))) / beta := by
    intro x
    unfold gateBranchInner
    rw [← neg_log_one_div_one_add_exp, neg_div]
  have houter : ∀ x : ℝ, gateBranchOuter beta b x =
      Real.log (1 + Real.exp (b * (2 * |x| - 1))) / beta := by
    intro x
    unfold gateBranchOuter
    rw [neg_mul, ← softplus_split (b * (2 * |x| - 1))]
  refine ⟨by rw [hinner, houter], ?_⟩
  unfold gatePenalty
  split_ifs with h
  · exact hinner (y - m)
  · exact houter (y - m)

/-- Claim C10: after the shift `Vshift = min(V0, VKP, V1)` each exponent
`-beta*(Vi - Vshift)` is nonpositive and at least one is zero, so the
Boltzmann partition sum lies in `[1, 3]`; hence the logarithm argument of
the potential routine and the weighted-average denominators of the two
force routines are strictly positive. -/
theorem partition_sum_bounds (beta V0 VKP V1 : ℝ) (hb : 0 < beta) :
    (-beta * (V0 - kcrpmdVshift V0 VKP V1) ≤ 0 ∧
     -beta * (VKP - kcrpmdVshift V0 VKP V1) ≤ 0 ∧
     -beta * (V1 - kcrpmdVshift V0 VKP V1) ≤ 0) ∧
    (-beta * (V0 - kcrpmdVshift V0 VKP V1) = 0 ∨
     -beta * (VKP - kcrpmdVshift V0 VKP V1) = 0 ∨
     -beta * (V1 - kcrpmdVshift V0 VKP V1) = 0) ∧
    (1 ≤ kcrpmdPartitionSum beta V0 VKP V1 ∧
     kcrpmdPartitionSum beta V0 VKP V1 ≤ 3) ∧
    0 < kcrpmdPartitionSum beta V0 VKP V1 := by
  have hS0 : kcrpmdVshift V0 VKP V1 ≤ V0 := min_le_left _ _
  have hSK : kcrpmdVshift V0 VKP V1 ≤ VKP :=
    le_trans (min_le_right _ _) (min_le_left _ _)
  have hS1 : kcrpmdVshift V0 VKP V1 ≤ V1 :=
    le_trans (min_le_right _ _) (min_le_right _ _)
  have e0 : -beta * (V0 - kcrpmdVshift V0 VKP V1) ≤ 0 := by nlinarith
  have eK : -beta * (VKP - kcrpmdVshift V0 VKP V1) ≤ 0 := by nlinarith
  have e1 : -beta * (V1 - kcrpmdVshift V0 VKP V1) ≤ 0 := by nlinarith
  have hzero : -beta * (V0 - kcrpmdVshift V0 VKP V1) = 0 ∨
      -beta * (VKP - kcrpmdVshift V0 VKP V1) = 0 ∨
      -beta * (V1 - kcrpmdVshift V0 VKP V1) = 0 := by
    rcases min_choice V0 (min VKP V1) with h | h
    · left; rw [kcrpmdVshift, h]; ring
    · rcases min_choice VKP V1 with h2 | h2
      · right; left; rw [kcrpmdVshift, h, h2]; ring
      · right; right; rw [kcrpmdVshift, h, h2]; ring
  have x0 : Real.exp (-beta * (V0 - kcrpmdVshift V0 VKP V1)) ≤ 1 :=
    Real.exp_le_one_iff.mpr e0
  have xK : Real.exp (-beta * (VKP - kcrpmdVshift V0 VKP V1)) ≤ 1 :=
    Real.exp_le_one_iff.mpr eK
  have x1 : Real.exp (-beta * (V1 - kcrpmdVshift V0 VKP V1)) ≤ 1 :=
    Real.exp_le_one_iff.mpr e1
  have p0 := Real.exp_pos (-beta * (V0 - kcrpmdVshift V0 VKP V1))
  have pK := Real.exp_pos (-beta * (VKP - kcrpmdVshift V0 VKP V1))
  have p1 := Real.exp_pos (-beta * (V1 - kcrpmdVshift V0 VKP V1))
  have hlow : 1 ≤ kcrpmdPartitionSum beta V0 VKP V1 := by
    unfold kcrpmdPartitionSum
    rcases hzero with h | h | h <;> rw [h] <;>
      simp only [Real.exp_zero] <;> linarith
  refine ⟨⟨e0, eK, e1⟩, hzero, ⟨hlow, ?_⟩, by unfold kcrpmdPartitionSum; positivity⟩
  unfold kcrpmdPartitionSum
  linarith

/-- Witness for `partition_sum_bounds` at
`beta = 1`, `V0 = 0`, `VKP = 0`, `V1 = 0`. -/
theorem partition_sum_bounds_witness :
    (0 : ℝ) < 1 ∧
    ((-1 * ((0 : ℝ) - kcrpmdVshift 0 0 0) ≤ 0 ∧
      -1 * ((0 : ℝ) - kcrpmdVshift 0 0 0) ≤ 0 ∧
      -1 * ((0 : ℝ) - kcrpmdVshift 0 0 0) ≤ 0) ∧
     (-1 * ((0 : ℝ) - kcrpmdVshift 0 0 0) = 0 ∨
      -1 * ((0 : ℝ) - kcrpmdVshift 0 0 0) = 0 ∨
      -1 * ((0 : ℝ) - kcrpmdVshift 0 0 0) = 0) ∧
     (1 ≤ kcrpmdPartitionSum 1 0 0 0 ∧ kcrpmdPartitionSum 1 0 0 0 ≤ 3) ∧
     0 < kcrpmdPartitionSum 1 0 0 0) :=
  ⟨one_pos, partition_sum_bounds 1 0 0 0 one_pos⟩

/-- Shifting the initial contents of the three uninitialized accumulators
of `kcrpmd_effective_auxiliary_force` by `t` shifts the returned auxiliary
force by exactly `t` (the Boltzmann weights are normalized). -/
lemma aux_force_init_shift (H : DiaHam) (y beta eta a b c d i0 i1 ikp t : ℝ) :
    kcrpmd_effective_auxiliary_force (i0 + t) (i1 + t) (ikp + t)
        H y beta eta a b c d =
      kcrpmd_effective_auxiliary_force i0 i1 ikp H y beta eta a b c d + t := by
  have hden : 0 < kcrpmdPartitionSum beta (H.V0 + gatePenalty beta b y (-1))
      (kcrpmdVKP beta eta a c d H.V0 H.V1 H.K + gatePenalty beta b y 0)
      (H.V1 + gatePenalty beta b y 1) := by
    unfold kcrpmdPartitionSum; positivity
  simp only [kcrpmd_effective_auxiliary_force]
  rw [div_add' _ _ _ hden.ne', div_eq_div_iff hden.ne' hden.ne']
  unfold kcrpmdPartitionSum
  ring

/-- Claim C3: the result of `kcrpmd_effective_auxiliary_force` is NOT a
function of the call inputs alone: the local accumulators `F0`, `F1`, `FKP`
are declared without initialization and only ever updated with `+=`, so the
returned value also depends on their indeterminate initial contents
(undefined behavior in the C++ source).  With all other inputs fixed
(`V0 = V1 = 0`, coupling `1`, `y = 0`, `beta = eta = a = b = c = d = 1`),
initial contents `0` and `1` give different results. -/
theorem aux_force_depends_on_uninitialized_accumulators :
    kcrpmd_effective_auxiliary_force 1 1 1 ⟨0, ((1 : ℝ) : ℂ), 0, 0⟩
        0 1 1 1 1 1 1 ≠
      kcrpmd_effective_auxiliary_force 0 0 0 ⟨0, ((1 : ℝ) : ℂ), 0, 0⟩
        0 1 1 1 1 1 1 := by
  have h := aux_force_init_shift ⟨0, ((1 : ℝ) : ℂ), 0, 0⟩ 0 1 1 1 1 1 1 0 0 0 1
  simp only [zero_add] at h
  rw [h]
  exact (lt_add_one _).ne'

/-- Claim C9: the precondition diagnostics do not always identify the
routine in which the precondition failed.  At the failing input `ndia = 3`
(Hamiltonian allocated, one bead, one trajectory), `kcrpmd_effective_force`
and `kcrpmd_effective_auxiliary_force` terminate with the verbatim
diagnostic of `kcrpmd_effective_potential`. -/
theorem force_diagnostic_names_wrong_routine :
    force_precheck 1 3 1 1 = some potential_ndia_msg ∧
    force_precheck 1 3 1 1 = potential_precheck 1 3 1 1 ∧
    aux_precheck 1 3 1 = some potential_ndia_msg := ⟨rfl, rfl, rfl⟩

/-- Counterexample to claim C8: at `a = 1`, `c = -1`, `beta = 301`, `K = 1`,
`FK = 1` the claimed skip condition `|c*(beta*K-1)| >= 250` holds, yet the
code's guard `c * |beta*K - 1| < 250` passes (it compares `c*|beta*K-1|`,
not `|c*(beta*K-1)|`), so `FA` is updated to a nonzero value instead of
being left at its zero initialization. -/
theorem fa_guard_counterexample :
    |(-1 : ℝ) * (301 * 1 - 1)| ≥ 250 ∧ kcrpmdFAupdate 1 (-1) 301 1 1 ≠ 0 := by
  have habs : |(301 : ℝ) * 1 - 1| = 300 := by
    rw [show (301 : ℝ) * 1 - 1 = 300 by norm_num]
    exact abs_of_pos (by norm_num)
  constructor
  · rw [show (-1 : ℝ) * (301 * 1 - 1) = -300 by norm_num, abs_neg,
      abs_of_pos (by norm_num : (0 : ℝ) < 300)]
    norm_num
  · unfold kcrpmdFAupdate
    rw [if_pos (by rw [habs]; norm_num : (-1 : ℝ) * |301 * 1 - 1| < 250)]
    have hc : (0 : ℝ) < Real.cosh (-(-1 : ℝ) * (301 * 1 - 1)) ^ 2 :=
      pow_pos (Real.cosh_pos _) 2
    have hpos : (0 : ℝ) <
        -0.5 * 1 * (-1) * 301 / Real.cosh (-(-1 : ℝ) * (301 * 1 - 1)) ^ 2 * 1 := by
      rw [mul_one]
      exact div_pos (by norm_num) hc
    exact hpos.ne'

/-- Claim C8 as amended: the `FA` update is skipped exactly when the code's
guard `c * |beta*K - 1| < 250` fails (so for `c < 0` it is never skipped),
and otherwise `FA = -(1/2)*a*c*beta*sech^2(-(c*(beta*K-1)))*FK`; the direct
`d`-guarded contribution to `FC` behaves the same way with `d` in place of
`c`. -/
theorem fa_fc_guard_characterization (eta a c d beta K FK : ℝ) :
    (kcrpmdFAupdate a c beta K FK =
      if c * |beta * K - 1| < 250 then
        -(1 / 2) * a * c * beta *
          (1 / Real.cosh (-(c * (beta * K - 1)))) ^ 2 * FK
      else 0) ∧
    (kcrpmdFCdirect eta a c d beta K FK =
      if d * |beta * K - 1| < 250 then
        -(1 / 2) * d * beta *
          (Real.sqrt (kcrpmdA a c beta K / 3.1415) * eta - 1) *
          (1 / Real.cosh (-(d * (beta * K - 1)))) ^ 2 * FK
      else 0) := by
  constructor
  · unfold kcrpmdFAupdate
    split_ifs with h
    · simp only [neg_mul]
      rw [div_pow, one_pow]
      field_simp
      ring
    · rfl
  · unfold kcrpmdFCdirect
    split_ifs with h
    · simp only [neg_mul]
      rw [div_pow, one_pow]
      field_simp
      ring
    · rfl

/-- `Vg` is unchanged under swapping the two diabatic energies. -/
lemma kcrpmdVg_swap (V0 V1 K : ℝ) : kcrpmdVg V1 V0 K = kcrpmdVg V0 V1 K := by
  unfold kcrpmdVg
  rw [show (V1 - V0) ^ 2 = (V0 - V1) ^ 2 by ring]
  ring

/-- `Ve` is unchanged under swapping the two diabatic energies. -/
lemma kcrpmdVe_swap (V0 V1 K : ℝ) : kcrpmdVe V1 V0 K = kcrpmdVe V0 V1 K := by
  unfold kcrpmdVe
  rw [show (V1 - V0) ^ 2 = (V0 - V1) ^ 2 by ring]
  ring

/-- The kinetic-constraint increment is unchanged under swapping `V0` and
`V1` (only `w^2` depends on them). -/
lemma kcrpmdConstraint_swap (beta eta a c d V0 V1 K : ℝ) :
    kcrpmdConstraint beta eta a c d V1 V0 K =
      kcrpmdConstraint beta eta a c d V0 V1 K := by
  unfold kcrpmdConstraint kcrpmdW
  rw [show ((V1 - V0) / K) ^ 2 = ((V0 - V1) / K) ^ 2 by ring]

/-- The raw kinked-pair energy is unchanged under swapping `V0` and `V1`,
in each of the three regimes. -/
lemma kcrpmdVKP0_swap (beta V0 V1 K : ℝ) :
    kcrpmdVKP0 beta V1 V0 K = kcrpmdVKP0 beta V0 V1 K := by
  unfold kcrpmdVKP0
  rw [kcrpmdVg_swap, kcrpmdVe_swap, abs_sub_comm V1 V0]
  by_cases h1 : beta * K > 1e-3
  · rw [if_pos h1, if_pos h1]
    have harg : 1 + Real.exp (-beta * (kcrpmdVe V0 V1 K - kcrpmdVg V0 V1 K)) -
        Real.exp (-beta * (V1 - kcrpmdVg V0 V1 K)) -
        Real.exp (-beta * (V0 - kcrpmdVg V0 V1 K)) =
        1 + Real.exp (-beta * (kcrpmdVe V0 V1 K - kcrpmdVg V0 V1 K)) -
        Real.exp (-beta * (V0 - kcrpmdVg V0 V1 K)) -
        Real.exp (-beta * (V1 - kcrpmdVg V0 V1 K)) := by ring
    rw [harg]
  · rw [if_neg h1, if_neg h1]
    by_cases h2 : beta * |V0 - V1| > 1e-7
    · rw [if_pos h2, if_pos h2]
      have harg : (beta * K) ^ 2 * Real.sinh (0.5 * beta * (V1 - V0)) /
          (0.5 * beta * (V1 - V0)) =
          (beta * K) ^ 2 * Real.sinh (0.5 * beta * (V0 - V1)) /
          (0.5 * beta * (V0 - V1)) := by
        rw [show 0.5 * beta * (V1 - V0) = -(0.5 * beta * (V0 - V1)) by ring,
          Real.sinh_neg, mul_neg, neg_div_neg_eq]
      rw [harg]
      ring
    · rw [if_neg h2, if_neg h2]
      ring

/-- Claim C7: the kinked-pair energy `VKP`, including the added
kinetic-constraint term, is unchanged when `V0` and `V1` are swapped while
`K` is kept the same, in every one of the three regime branches (proved for
all real inputs, hence in particular for `K >= 0` and `beta > 0`). -/
theorem vkp_swap_symmetric (beta eta a c d V0 V1 K : ℝ) :
    kcrpmdVKP beta eta a c d V1 V0 K = kcrpmdVKP beta eta a c d V0 V1 K := by
  unfold kcrpmdVKP
  rw [kcrpmdVKP0_swap, kcrpmdConstraint_swap]

/-- Counterexample to claim C4: with `beta = 1`, `eta = 1`, `a = 2`,
`c = d = 0`, `V0 = V1 = 0`, `K = 1` (so `A = 1` and `w = 0`), the
constraint term the code adds differs from the claimed
`(A*w^2 - ln C)/beta` with the mathematical constant pi, because the code
divides by the literal `3.1415` inside `C`, and `3.1415 < pi`. -/
theorem constraint_pi_literal_counterexample :
    kcrpmdConstraint 1 1 2 0 0 0 0 1 ≠ kcrpmdConstraintSpecPi 1 1 2 0 0 0 0 1 := by
  have hA : kcrpmdA 2 0 1 1 = 1 := by
    unfold kcrpmdA
    norm_num
  have e1 : kcrpmdConstraint 1 1 2 0 0 0 0 1 =
      -Real.log (1 + 0.5 * (Real.sqrt (1 / 3.1415) - 1)) := by
    unfold kcrpmdConstraint kcrpmdC kcrpmdW
    rw [hA]
    norm_num
  have e2 : kcrpmdConstraintSpecPi 1 1 2 0 0 0 0 1 =
      -Real.log (1 + 0.5 * (Real.sqrt (1 / Real.pi) - 1)) := by
    unfold kcrpmdConstraintSpecPi kcrpmdW
    rw [hA]
    norm_num
  have hlt : Real.sqrt (1 / Real.pi) < Real.sqrt (1 / 3.1415) :=
    Real.sqrt_lt_sqrt (by positivity)
      (one_div_lt_one_div_of_lt (by norm_num) Real.pi_gt_d4)
  have hpos : (0 : ℝ) < 1 + 0.5 * (Real.sqrt (1 / Real.pi) - 1) := by
    have := Real.sqrt_nonneg (1 / Real.pi)
    linarith
  have hloglt : Real.log (1 + 0.5 * (Real.sqrt (1 / Real.pi) - 1)) <
      Real.log (1 + 0.5 * (Real.sqrt (1 / 3.1415) - 1)) :=
    Real.log_lt_log hpos (by linarith)
  rw [e1, e2]
  exact (neg_lt_neg hloglt).ne

/-- Claim C4 as amended: the kinetic-constraint modifier adds to `VKP`
exactly `(A*w^2 - ln C)/beta` with `w = (V0-V1)/K`,
`A = (1/2)a(1+tanh(-c(beta*K-1)))` and
`C = 1 + (1/2)(sqrt(A/3.1415)*eta - 1)(1+tanh(-d(beta*K-1)))`, where the
denominator under the square root is the code's literal `3.1415`, not the
mathematical constant pi. -/
theorem constraint_term_formula_with_literal (beta eta a c d V0 V1 K : ℝ) :
    kcrpmdVKP beta eta a c d V0 V1 K - kcrpmdVKP0 beta V0 V1 K =
      (1 / 2 * a * (1 + Real.tanh (-(c * (beta * K - 1)))) *
          ((V0 - V1) / K) ^ 2 -
        Real.log (1 + 1 / 2 *
          (Real.sqrt (1 / 2 * a * (1 + Real.tanh (-(c * (beta * K - 1)))) /
              3.1415) * eta - 1) *
          (1 + Real.tanh (-(d * (beta * K - 1)))))) / beta := by
  simp only [kcrpmdVKP, kcrpmdConstraint, kcrpmdC, kcrpmdA, kcrpmdW, neg_mul]
  norm_num

/-- `tanh x < 1` for every real `x`. -/
lemma tanh_lt_one' (x : ℝ) : Real.tanh x < 1 := by
  rw [Real.tanh_eq_sinh_div_cosh, div_lt_one (Real.cosh_pos x)]
  have h := Real.cosh_sub_sinh x
  have h2 := Real.exp_pos (-x)
  linarith

/-- `-1 < tanh x` for every real `x`. -/
lemma neg_one_lt_tanh' (x : ℝ) : -1 < Real.tanh x := by
  rw [Real.tanh_eq_sinh_div_cosh, lt_div_iff₀ (Real.cosh_pos x)]
  have h := Real.sinh_add_cosh x
  have h2 := Real.exp_pos x
  linarith

/-- `11 <= e^10`. -/
lemma eleven_le_exp_ten : (11 : ℝ) ≤ Real.exp 10 := by
  have h := Real.add_one_le_exp (10 : ℝ)
  linarith

/-- `e^{-10} <= 1/11`. -/
lemma exp_neg_ten_le : Real.exp (-10) ≤ 1 / 11 := by
  rw [Real.exp_neg]
  calc (Real.exp 10)⁻¹ ≤ (11 : ℝ)⁻¹ :=
        inv_anti₀ (by norm_num) eleven_le_exp_ten
    _ = 1 / 11 := by norm_num

/-- At the C5 scenario, `Vg = -0.01`. -/
lemma c5_vg : kcrpmdVg 0 0 0.01 = -0.01 := by
  unfold kcrpmdVg
  rw [show ((0 : ℝ) - 0) ^ 2 + (2 * 0.01) ^ 2 = (0.02 : ℝ) ^ 2 by norm_num,
    Real.sqrt_sq (by norm_num : (0 : ℝ) ≤ 0.02)]
  norm_num

/-- At the C5 scenario, `Ve = 0.01`. -/
lemma c5_ve : kcrpmdVe 0 0 0.01 = 0.01 := by
  unfold kcrpmdVe
  rw [show ((0 : ℝ) - 0) ^ 2 + (2 * 0.01) ^ 2 = (0.02 : ℝ) ^ 2 by norm_num,
    Real.sqrt_sq (by norm_num : (0 : ℝ) ≤ 0.02)]
  norm_num

/-- The C5 logarithm argument `1 + e^{-20} - 2e^{-10}` is positive. -/
lemma c5_arg_pos :
    0 < 1 + Real.exp (-20) - Real.exp (-10) - Real.exp (-10) := by
  have h1 := exp_neg_ten_le
  have h2 := Real.exp_pos (-20 : ℝ)
  linarith

/-- The C5 logarithm argument `1 + e^{-20} - 2e^{-10}` is below one. -/
lemma c5_arg_lt_one :
    1 + Real.exp (-20) - Real.exp (-10) - Real.exp (-10) < 1 := by
  have h : Real.exp (-20) < Real.exp (-10) := Real.exp_lt_exp.mpr (by norm_num)
  have h2 := Real.exp_pos (-10 : ℝ)
  linarith

/-- At the C5 scenario the raw `VKP` takes the `beta*K > 1e-3` branch and
has the closed form `-0.01 - log(1 + e^{-20} - 2e^{-10})/1000`. -/
lemma c5_vkp0_eq : kcrpmdVKP0 1000 0 0 0.01 =
    -0.01 - Real.log (1 + Real.exp (-20) - Real.exp (-10) - Real.exp (-10)) /
      1000 := by
  unfold kcrpmdVKP0
  rw [if_pos (by norm_num : (1000 : ℝ) * 0.01 > 1e-3), c5_vg, c5_ve]
  norm_num

/-- At the C5 scenario (`V0 = V1`, so `w = 0`) the constraint term is
`-log(C)/1000`. -/
lemma c5_constraint_eq : kcrpmdConstraint 1000 1 1 1 1 0 0 0.01 =
    -Real.log (kcrpmdC 1 1 1 1 1000 0.01) / 1000 := by
  unfold kcrpmdConstraint kcrpmdW
  norm_num

/-- At the C5 scenario, `A = 0.5*(1 + tanh(-9))`. -/
lemma c5_A_eq : kcrpmdA 1 1 1000 0.01 = 0.5 * (1 + Real.tanh (-9)) := by
  unfold kcrpmdA
  norm_num

/-- At the C5 scenario, `0 < A`. -/
lemma c5_A_pos : 0 < kcrpmdA 1 1 1000 0.01 := by
  rw [c5_A_eq]
  have := neg_one_lt_tanh' (-9)
  linarith

/-- At the C5 scenario, `sqrt(A/3.1415) < 1`. -/
lemma c5_sqrt_lt_one : Real.sqrt (kcrpmdA 1 1 1000 0.01 / 3.1415) < 1 := by
  have hA := c5_A_pos
  have hAlt : kcrpmdA 1 1 1000 0.01 < 3.1415 := by
    rw [c5_A_eq]
    have := tanh_lt_one' (-9)
    linarith
  have h := Real.sqrt_lt_sqrt
    (div_nonneg hA.le (by norm_num : (0 : ℝ) ≤ 3.1415))
    ((div_lt_one (by norm_num : (0 : ℝ) < 3.1415)).mpr hAlt)
  rwa [Real.sqrt_one] at h

/-- At the C5 scenario, `C < 1`. -/
lemma c5_C_lt_one : kcrpmdC 1 1 1 1 1000 0.01 < 1 := by
  unfold kcrpmdC
  have hs := c5_sqrt_lt_one
  have ht := neg_one_lt_tanh' (-1 * (1000 * 0.01 - 1))
  have hprod : (Real.sqrt (kcrpmdA 1 1 1000 0.01 / 3.1415) * 1 - 1) *
      (1 + Real.tanh (-1 * (1000 * 0.01 - 1))) < 0 :=
    mul_neg_of_neg_of_pos (by linarith) (by linarith)
  linarith

/-- At the C5 scenario, `0 < C`. -/
lemma c5_C_pos : 0 < kcrpmdC 1 1 1 1 1000 0.01 := by
  unfold kcrpmdC
  have hs0 := Real.sqrt_nonneg (kcrpmdA 1 1 1000 0.01 / 3.1415)
  have hs := c5_sqrt_lt_one
  have ht1 := tanh_lt_one' (-1 * (1000 * 0.01 - 1))
  have ht2 := neg_one_lt_tanh' (-1 * (1000 * 0.01 - 1))
  nlinarith

/-- Counterexample to the "sanity bound `VKP <= Vg`" of claim C5: at the
spec scenario `V0 = V1 = 0`, `K = 0.01`, `beta = 1000`, `eta = a = c = d = 1`
the kinked-pair energy (kinetic-constraint term included) is strictly ABOVE
the adiabatic ground energy `Vg`. -/
theorem vkp_exceeds_vg_at_spec_scenario :
    kcrpmdVg 0 0 0.01 < kcrpmdVKP 1000 1 1 1 1 0 0 0.01 := by
  have hdecomp : kcrpmdVKP 1000 1 1 1 1 0 0 0.01 =
      kcrpmdVKP0 1000 0 0 0.01 + kcrpmdConstraint 1000 1 1 1 1 0 0 0.01 := rfl
  rw [hdecomp, c5_vkp0_eq, c5_constraint_eq, c5_vg]
  have l1 : Real.log (1 + Real.exp (-20) - Real.exp (-10) - Real.exp (-10)) < 0 :=
    Real.log_neg c5_arg_pos c5_arg_lt_one
  have l2 : Real.log (kcrpmdC 1 1 1 1 1000 0.01) < 0 :=
    Real.log_neg c5_C_pos c5_C_lt_one
  linarith

/-- Claim C5 as amended: at the spec scenario `V0 = V1 = 0`, `K = 0.01`,
`beta = 1000`, `eta = a = c = d = 1` (first regime, `beta*K = 10 > 1e-3`),
the kinked-pair energy computes without error (the logarithm arguments of
the selected branch and of the constraint term are strictly positive) and
satisfies `VKP <= min(V0, V1)` plus the constraint term; the claim's
parenthetical stronger bound `VKP <= Vg` is false (see the
counterexample). -/
theorem vkp_bounded_by_min_plus_constraint_at_spec_scenario :
    0 < 1 + Real.exp (-20) - Real.exp (-10) - Real.exp (-10) ∧
    0 < kcrpmdC 1 1 1 1 1000 0.01 ∧
    kcrpmdVKP 1000 1 1 1 1 0 0 0.01 ≤
      min (0 : ℝ) 0 + kcrpmdConstraint 1000 1 1 1 1 0 0 0.01 := by
  refine ⟨c5_arg_pos, c5_C_pos, ?_⟩
  have hdecomp : kcrpmdVKP 1000 1 1 1 1 0 0 0.01 =
      kcrpmdVKP0 1000 0 0 0.01 + kcrpmdConstraint 1000 1 1 1 1 0 0 0.01 := rfl
  rw [hdecomp, c5_vkp0_eq, min_self]
  have hlog : (-10 : ℝ) ≤
      Real.log (1 + Real.exp (-20) - Real.exp (-10) - Real.exp (-10)) := by
    rw [Real.le_log_iff_exp_le c5_arg_pos]
    have h1 := exp_neg_ten_le
    have h2 := Real.exp_pos (-20 : ℝ)
    linarith
  linarith

end KCRPMD
